import Mathlib

/-!
Verification of the Photo-Management-System backend (FastAPI + SQLAlchemy)
against its natural-language specification, via a shallow embedding of the
data model (`app/db/models.py`), the CRUD layer (`app/db/crud.py`) and the
route handlers (`app/routers/*.py`) into Lean.

Database rows are modelled as structures, tables as lists of rows, and the
database as a record of tables.  SQL numeric aggregation (AVG) is modelled
over ℚ; timestamp columns (`created_at`, `upload_time`, `selected_at`) are
not modelled because no verified property mentions them; `upload_date` is
modelled as a day index (Nat).  HTTP failures are modelled as `Except Nat`
values carrying the status code.
-/

namespace PhotoApp

/-- Row of the `users` table (`models.py`, class `User`). -/
structure UserRow where
  id : Nat
  username : String
  email : String
  is_photographer : Bool
  is_admin : Bool
deriving Repr, DecidableEq

/-- Row of the `photos` table (`models.py`, class `Photo`). -/
structure PhotoRow where
  id : Nat
  user_id : Nat
  filename : String
  upload_date : Nat
  download_count : Nat
deriving Repr, DecidableEq

/-- Row of the `follows` table (`models.py`, class `Follow`). -/
structure FollowRow where
  id : Nat
  follower_id : Nat
  followee_id : Nat
deriving Repr, DecidableEq

/-- Row of the `comments` table (`models.py`, class `Comment`). -/
structure CommentRow where
  id : Nat
  photo_id : Nat
  user_id : Nat
  content : String
deriving Repr, DecidableEq

/-- Row of the `ratings` table (`models.py`, class `Rating`). -/
structure RatingRow where
  id : Nat
  photo_id : Nat
  user_id : Nat
  score : Int
deriving Repr, DecidableEq

/-- Row of the `photo_tags` table (`models.py`, class `PhotoTag`). -/
structure PhotoTagRow where
  id : Nat
  photo_id : Nat
  tag_text : String
deriving Repr, DecidableEq

/-- Row of the `best_photo_of_the_day` table (`models.py`,
class `BestPhotoOfTheDay`; `date` is the primary key). -/
structure BestPhotoRow where
  date : Nat
  photo_id : Nat
deriving Repr, DecidableEq

/-- The whole relational state: one list per table. -/
structure DB where
  users : List UserRow
  photos : List PhotoRow
  follows : List FollowRow
  comments : List CommentRow
  ratings : List RatingRow
  tags : List PhotoTagRow
  bestPhotos : List BestPhotoRow
deriving Repr, DecidableEq

/-- Fresh autoincrement primary key for an insert: 1 + max of existing ids. -/
def nextId (ids : List Nat) : Nat := ids.foldr max 0 + 1

/-! ## CRUD layer (`app/db/crud.py`) -/

/-- Embeds `crud.get_user_by_id`: `db.query(User).filter(User.id == user_id).first()`. -/
def get_user_by_id (db : DB) (user_id : Nat) : Option UserRow :=
  db.users.find? (fun u => u.id == user_id)

/-- Embeds `crud.get_photo`: `db.query(Photo).filter(Photo.id == photo_id).first()`. -/
def get_photo (db : DB) (photo_id : Nat) : Option PhotoRow :=
  db.photos.find? (fun p => p.id == photo_id)

/-- Embeds `crud.increment_download_count`: sets `photo.download_count += 1` on the
row whose primary key is `photo.id` and commits. -/
def increment_download_count (db : DB) (photo : PhotoRow) : DB :=
  { db with photos :=
      db.photos.map (fun q =>
        if q.id == photo.id
        then { q with download_count := q.download_count + 1 }
        else q) }

/-- Embeds `crud.get_followees`: `db.query(Follow.followee_id).filter(Follow.follower_id == user_id).all()`,
a list of followee ids. -/
def get_followees (db : DB) (user_id : Nat) : List Nat :=
  (db.follows.filter (fun f => f.follower_id == user_id)).map (fun f => f.followee_id)

/-- Embeds `crud.get_follow`: first `Follow` row matching both ids, if any. -/
def get_follow (db : DB) (follower_id followee_id : Nat) : Option FollowRow :=
  db.follows.find? (fun f => f.follower_id == follower_id && f.followee_id == followee_id)

/-- Embeds `crud.check_follow_exists`: `get_follow(...) is not None`. -/
def check_follow_exists (db : DB) (follower_id followee_id : Nat) : Bool :=
  (get_follow db follower_id followee_id).isSome

/-- Embeds `crud.follow_user`: unconditionally inserts a new `Follow` row and
returns it (the table has no uniqueness constraint on the pair). -/
def follow_user (db : DB) (follower_id followee_id : Nat) : DB × FollowRow :=
  let row : FollowRow :=
    { id := nextId (db.follows.map (fun f => f.id)),
      follower_id := follower_id, followee_id := followee_id }
  ({ db with follows := db.follows ++ [row] }, row)

/-- Embeds `crud.unfollow_user`: deletes every `Follow` row matching the pair. -/
def unfollow_user (db : DB) (follower_id followee_id : Nat) : DB :=
  { db with follows :=
      db.follows.filter (fun f =>
        !(f.follower_id == follower_id && f.followee_id == followee_id)) }

/-- Embeds `crud.create_comment`: inserts a new `Comment` row and returns it. -/
def create_comment (db : DB) (user_id photo_id : Nat) (content : String) : DB × CommentRow :=
  let row : CommentRow :=
    { id := nextId (db.comments.map (fun c => c.id)),
      photo_id := photo_id, user_id := user_id, content := content }
  ({ db with comments := db.comments ++ [row] }, row)

/-- Embeds `crud.create_rating`: inserts a new `Rating` row and returns it. -/
def create_rating (db : DB) (user_id photo_id : Nat) (score : Int) : DB × RatingRow :=
  let row : RatingRow :=
    { id := nextId (db.ratings.map (fun r => r.id)),
      photo_id := photo_id, user_id := user_id, score := score }
  ({ db with ratings := db.ratings ++ [row] }, row)

/-- Embeds `crud.get_ratings_by_photo`: all `Rating` rows of the photo. -/
def get_ratings_by_photo (db : DB) (photo_id : Nat) : List RatingRow :=
  db.ratings.filter (fun r => r.photo_id == photo_id)

/-- SQL `AVG` over a list of integer scores: `NULL` (none) on the empty set,
otherwise the exact quotient sum / count (SQL AVG divides in real
arithmetic, modelled in ℚ). -/
def sqlAvg (xs : List Int) : Option ℚ :=
  if xs.isEmpty then none
  else some (((xs.sum : Int) : ℚ) / (xs.length : ℚ))

/-- Embeds `crud.get_average_rating`:
`avg = db.query(func.avg(Rating.score)).filter(Rating.photo_id == photo_id).scalar()`
then `float(avg) if avg is not None else 0.0`. -/
def get_average_rating (db : DB) (photo_id : Nat) : ℚ :=
  match sqlAvg ((get_ratings_by_photo db photo_id).map (fun r => r.score)) with
  | none => 0
  | some q => q

/-- The comment count used by `calculate_and_store_best_photo`:
`db.query(func.count(Comment.id)).filter(Comment.photo_id == photo.id).scalar() or 0`. -/
def comment_count (db : DB) (photo_id : Nat) : Nat :=
  (db.comments.filter (fun c => c.photo_id == photo_id)).length

/-- The score formula of `calculate_and_store_best_photo`:
`(avg_rating * 2) + (comment_count * 0.5) + (download_count * 0.2)`. -/
def photo_score (db : DB) (photo : PhotoRow) : ℚ :=
  get_average_rating db photo.id * 2
    + (comment_count db photo.id : ℚ) * (1 / 2)
    + (photo.download_count : ℚ) * (1 / 5)

/-- The photos scanned by `calculate_and_store_best_photo`:
`db.query(Photo).filter(Photo.upload_date == target_date).all()`. -/
def photos_of_date (db : DB) (target_date : Nat) : List PhotoRow :=
  db.photos.filter (fun p => p.upload_date == target_date)

/-- Embeds `crud.get_best_photo_of_day`: first row with the given date. -/
def get_best_photo_of_day (db : DB) (target_date : Nat) : Option BestPhotoRow :=
  db.bestPhotos.find? (fun b => b.date == target_date)

/-- Embeds `crud.set_best_photo_of_day`: update the row with that date if present
(`date` is the primary key), otherwise insert a new one. -/
def set_best_photo_of_day (db : DB) (target_date photo_id : Nat) : DB :=
  if db.bestPhotos.any (fun b => b.date == target_date) then
    { db with bestPhotos :=
        db.bestPhotos.map (fun b =>
          if b.date == target_date then { b with photo_id := photo_id } else b) }
  else
    { db with bestPhotos := db.bestPhotos ++ [{ date := target_date, photo_id := photo_id }] }

/-- The scan loop of `calculate_and_store_best_photo`: walks the day's
photos keeping the current best and its score (`best = None`,
`best_score = -1` initially; a photo replaces the best when
`score > best_score`). -/
def best_photo_loop (db : DB) : List PhotoRow → Option PhotoRow → ℚ → Option PhotoRow
  | [], best, _ => best
  | p :: rest, best, best_score =>
      if best_score < photo_score db p
      then best_photo_loop db rest (some p) (photo_score db p)
      else best_photo_loop db rest best best_score

/-- Embeds `crud.calculate_and_store_best_photo`: scan the day's photos; if a best
photo was found, store it via `set_best_photo_of_day` and return its id,
otherwise return `None` leaving the database untouched. -/
def calculate_and_store_best_photo (db : DB) (target_date : Nat) : Option Nat × DB :=
  match best_photo_loop db (photos_of_date db target_date) none (-1) with
  | some best => (some best.id, set_best_photo_of_day db target_date best.id)
  | none => (none, db)

/-! ## Route handlers (`app/routers/*.py`)

Handlers return `Except Nat α`: `.error c` models `raise HTTPException(status_code=c, ...)`.
-/

/-- Embeds `routers/comment.py`, `create_comment` (POST /photos/\x7bphoto_id\x7d/comments):
404 when the photo is missing, 403 unless the caller owns the photo or
follows its owner, otherwise insert the comment. -/
def create_comment_handler (db : DB) (current_user photo_id : Nat) (content : String) :
    Except Nat (DB × CommentRow) :=
  match get_photo db photo_id with
  | none => .error 404
  | some photo =>
      let is_photographer := photo.user_id == current_user
      let follows_photographer := check_follow_exists db current_user photo.user_id
      if !(is_photographer || follows_photographer) then .error 403
      else .ok (create_comment db current_user photo_id content)

/-- Database state after running the comment handler: the new state on
success, the unchanged input state when an HTTPException was raised. -/
def comment_result_state (db : DB) (current_user photo_id : Nat) (content : String) : DB :=
  match create_comment_handler db current_user photo_id content with
  | .ok (db', _) => db'
  | .error _ => db

/-- Embeds `routers/rating.py`, `create_rating` (POST /photos/\x7bphoto_id\x7d/ratings):
404 when the photo is missing, 403 unless the caller owns the photo or
follows its owner, otherwise insert the rating. -/
def create_rating_handler (db : DB) (current_user photo_id : Nat) (score : Int) :
    Except Nat (DB × RatingRow) :=
  match get_photo db photo_id with
  | none => .error 404
  | some photo =>
      let is_photographer := photo.user_id == current_user
      let follows_photographer := check_follow_exists db current_user photo.user_id
      if !(is_photographer || follows_photographer) then .error 403
      else .ok (create_rating db current_user photo_id score)

/-- Database state after running the rating handler. -/
def rating_result_state (db : DB) (current_user photo_id : Nat) (score : Int) : DB :=
  match create_rating_handler db current_user photo_id score with
  | .ok (db', _) => db'
  | .error _ => db

/-- The request-schema validation of `schemas/rating.py`, `RatingCreate`:
`score: int = Field(..., ge=1, le=5)`.  FastAPI rejects any payload failing
this test before the handler runs. -/
def rating_create_valid (score : Int) : Bool :=
  1 ≤ score && score ≤ 5

/-- Embeds `routers/photo.py`, `download_photo` (GET /photos/\x7bphoto_id\x7d/download):
404 when the photo row is missing, 404 when its file is absent from the
upload directory (modelled as the list `files` of present filenames),
otherwise increment the download count and serve the file. -/
def download_photo_handler (db : DB) (files : List String) (photo_id : Nat) :
    Except Nat (DB × String) :=
  match get_photo db photo_id with
  | none => .error 404
  | some photo =>
      if photo.filename ∈ files
      then .ok (increment_download_count db photo, photo.filename)
      else .error 404

/-- Database state after running the download handler. -/
def download_result_state (db : DB) (files : List String) (photo_id : Nat) : DB :=
  match download_photo_handler db files photo_id with
  | .ok (db', _) => db'
  | .error _ => db

/-- Embeds `routers/follow.py`, `follow_photographer` (POST /follow/\x7bphotographer_id\x7d):
400 on self-follow, 404 on missing target, 400 on non-photographer target,
400 on an already existing follow, otherwise insert the follow row. -/
def follow_photographer_handler (db : DB) (current_user photographer_id : Nat) :
    Except Nat (DB × FollowRow) :=
  if current_user == photographer_id then .error 400
  else match get_user_by_id db photographer_id with
  | none => .error 404
  | some photographer =>
      if !photographer.is_photographer then .error 400
      else if (get_follow db current_user photographer_id).isSome then .error 400
      else .ok (follow_user db current_user photographer_id)

/-- Embeds `routers/follow.py`, `unfollow_photographer` (DELETE /follow/\x7bphotographer_id\x7d):
404 on missing target, 400 on non-photographer target, 404 when not
following, otherwise delete the follow rows. -/
def unfollow_photographer_handler (db : DB) (current_user photographer_id : Nat) :
    Except Nat DB :=
  match get_user_by_id db photographer_id with
  | none => .error 404
  | some photographer =>
      if !photographer.is_photographer then .error 400
      else if !check_follow_exists db current_user photographer_id then .error 404
      else .ok (unfollow_user db current_user photographer_id)

/-! ## Admin cascade deletes (`app/routers/admin.py` + ORM cascades of `models.py`) -/

/-- Embeds `routers/admin.py`, `delete_photo`: `db.delete(photo)` with the
`Photo` relationships `comments`, `ratings`, `tags`, `best_photo` all
declared `cascade="all, delete-orphan"`: the photo row goes away together
with every comment, rating, tag and best-photo record attached to it. -/
def delete_photo_cascade (db : DB) (photo_id : Nat) : DB :=
  { db with
      photos := db.photos.filter (fun p => p.id != photo_id),
      comments := db.comments.filter (fun c => c.photo_id != photo_id),
      ratings := db.ratings.filter (fun r => r.photo_id != photo_id),
      tags := db.tags.filter (fun t => t.photo_id != photo_id),
      bestPhotos := db.bestPhotos.filter (fun b => b.photo_id != photo_id) }

/-- Embeds `routers/admin.py`, `delete_user`: `db.delete(user)` with the `User`
relationships `photos`, `comments`, `ratings`, `follows` (as follower) and
`followers` (as followee) all declared `cascade="all, delete-orphan"`.
Deleting each owned photo recursively triggers the photo cascade, then the
user's own comments, ratings and follow rows (both directions) and the user
row itself are removed. -/
def delete_user_cascade (db : DB) (user_id : Nat) : DB :=
  let deadPhotoIds := (db.photos.filter (fun p => p.user_id == user_id)).map (fun p => p.id)
  let db1 := deadPhotoIds.foldl delete_photo_cascade db
  { db1 with
      users := db1.users.filter (fun u => u.id != user_id),
      photos := db1.photos.filter (fun p => p.user_id != user_id),
      comments := db1.comments.filter (fun c => c.user_id != user_id),
      ratings := db1.ratings.filter (fun r => r.user_id != user_id),
      follows := db1.follows.filter (fun f =>
        f.follower_id != user_id && f.followee_id != user_id) }

/-! ## Route table of `app/routers/suggestion.py`

The module registers two handlers on the same method and path; Starlette
dispatches a request to the first registered route that matches, in
registration (file) order. -/

/-- The routes of `suggestion.py` in registration order:
method, path, handler name. -/
def suggestion_routes : List (String × String × String) :=
  [("GET", "/suggestions", "suggest_photographers"),
   ("GET", "/suggestions", "get_photographer_suggestions")]

/-- Starlette route dispatch: the first registered route matching the
method and path wins. -/
def dispatch (routes : List (String × String × String)) (method path : String) :
    Option String :=
  (routes.find? (fun r => r.1 == method && r.2.1 == path)).map (fun r => r.2.2)

/-- The columns of the `Photo` ORM model (`models.py`, class `Photo`). -/
def photo_model_columns : List String :=
  ["id", "user_id", "filename", "caption", "upload_time", "upload_date", "download_count"]

/-- The `Photo` attributes referenced by strategy 3 ("recently active
photographers") of `get_photographer_suggestions`:
`models.Photo.user_id`, `models.Photo.likes_count`, `models.Photo.created_at`. -/
def strategy3_photo_attributes : List String :=
  ["user_id", "likes_count", "created_at"]

/-! ## Status codes raised across the routers (`app/routers/*.py`,
`app/routers/dependencies.py`): one entry per `raise HTTPException` site. -/

/-- Every `raise HTTPException(status_code=...)` site of the code base, in
file order: auth.py, dependencies.py, photo.py, comment.py, rating.py,
follow.py, best_photo.py, admin.py. -/
def raised_status_codes : List Nat :=
  [400, 400, 401,                -- auth.py: register (email, username), login
   401, 403,                     -- dependencies.py: get_current_user, require_photographer
   400, 400, 500,                -- photo.py upload_photo
   400, 500, 500, 500, 500, 500, -- photo.py create_photo
   404, 404,                     -- photo.py download_photo
   404, 403,                     -- photo.py get_share_link
   404, 403, 404, 403,           -- comment.py: create_comment, list_comments
   404, 403, 404, 403, 404, 403, -- rating.py: create, list, average
   400, 404, 400, 400,           -- follow.py follow_photographer
   404, 400, 404,                -- follow.py unfollow_photographer
   403,                          -- follow.py list_followers
   404,                          -- best_photo.py best_photo_today
   403, 404, 404, 404]           -- admin.py: require_admin, delete_user, delete_photo, delete_comment

/-- The status-code vocabulary the specification allows for failures. -/
def allowed_status_codes : List Nat := [400, 401, 403, 404, 500]

/-! ## Transition systems for the reachable-state invariants -/

/-- A call to the follow or unfollow endpoint by user `uid` targeting
`pid`. -/
inductive FollowEvent where
  | follow (uid pid : Nat)
  | unfollow (uid pid : Nat)
deriving Repr, DecidableEq

/-- Applying one follow/unfollow endpoint call to the database: an
HTTPException leaves the state unchanged. -/
def apply_follow_event (db : DB) : FollowEvent → DB
  | .follow u p =>
      match follow_photographer_handler db u p with
      | .ok (db', _) => db'
      | .error _ => db
  | .unfollow u p =>
      match unfollow_photographer_handler db u p with
      | .ok db' => db'
      | .error _ => db

/-- The follow-table invariant of claim C8: no self-follow, every followee
is a photographer on record, and no duplicated (follower, followee) pair. -/
def follow_invariant (db : DB) : Prop :=
  (∀ f ∈ db.follows,
      f.follower_id ≠ f.followee_id ∧
      ∃ u ∈ db.users, u.id = f.followee_id ∧ u.is_photographer = true) ∧
  db.follows.Pairwise (fun a b =>
    a.follower_id ≠ b.follower_id ∨ a.followee_id ≠ b.followee_id)

/-- A call to the rating-creation endpoint: FastAPI runs the handler only
on payloads accepted by `RatingCreate`, otherwise the request is rejected
before the handler and the state is unchanged. -/
structure RatingEvent where
  uid : Nat
  pid : Nat
  score : Int
deriving Repr, DecidableEq

/-- Applying one POST /photos/\x7bphoto_id\x7d/ratings call to the database. -/
def apply_rating_event (db : DB) (e : RatingEvent) : DB :=
  if rating_create_valid e.score
  then rating_result_state db e.uid e.pid e.score
  else db

/-- The rating-score invariant of claim C9: every stored score lies in
[1, 5]. -/
def rating_invariant (db : DB) : Prop :=
  ∀ r ∈ db.ratings, 1 ≤ r.score ∧ r.score ≤ 5

/-! ## Concrete states used by witnesses and counterexamples -/

/-- A small database: two photographers, bob (2) follows alice (1), alice
owns photo 1 which bob commented on and rated. -/
def exampleDB : DB :=
  { users := [⟨1, "alice", "alice AT example", true, false⟩,
              ⟨2, "bob", "bob AT example", true, false⟩],
    photos := [⟨1, 1, "p1.jpg", 7, 0⟩],
    follows := [⟨1, 2, 1⟩],
    comments := [⟨1, 1, 2, "nice shot"⟩],
    ratings := [⟨1, 1, 2, 5⟩],
    tags := [⟨1, 1, "sunset"⟩],
    bestPhotos := [] }

/-- A database where user 2 commented on user 1's photo: used to refute
the frame part of the user-deletion claim. -/
def cascadeDB : DB :=
  { users := [⟨1, "ana", "ana AT example", true, false⟩,
              ⟨2, "ben", "ben AT example", false, false⟩],
    photos := [⟨1, 1, "p1.jpg", 3, 0⟩],
    follows := [],
    comments := [⟨1, 1, 2, "great"⟩],
    ratings := [],
    tags := [],
    bestPhotos := [] }

/-! ## Theorems -/

/-- C4: creating a follow row with `follow_user` and then querying
`get_followees` for the follower returns a list containing the followee. -/
theorem follow_then_get_followees_contains (db : DB) (follower_id followee_id : Nat) :
    followee_id ∈ get_followees (follow_user db follower_id followee_id).1 follower_id := by
  simp [get_followees, follow_user, List.filter_append]

/-- For a nonempty score list, the defaulted SQL average times the length
recovers the sum. -/
lemma sqlAvg_mul_length (xs : List Int) (h : xs ≠ []) :
    (match sqlAvg xs with | none => 0 | some q => q) * (xs.length : ℚ)
      = ((xs.sum : Int) : ℚ) := by
  have hne : xs.isEmpty = false := by simp [List.isEmpty_iff, h]
  have hlen : (xs.length : ℚ) ≠ 0 := by
    exact_mod_cast (List.length_pos.mpr h).ne'
  simp [sqlAvg, hne, div_mul_cancel₀ _ hlen]

/-- C6: `get_average_rating` is the exact arithmetic mean of the photo's
rating scores — it is 0 when the photo has no ratings, and otherwise
multiplying it by the number of ratings recovers the sum of the scores. -/
theorem get_average_rating_exact_mean (db : DB) (photo_id : Nat) :
    (get_ratings_by_photo db photo_id = [] → get_average_rating db photo_id = 0) ∧
    (get_ratings_by_photo db photo_id ≠ [] →
      get_average_rating db photo_id * ((get_ratings_by_photo db photo_id).length : ℚ)
        = ((((get_ratings_by_photo db photo_id).map (fun r => r.score)).sum : Int) : ℚ)) := by
  constructor
  · intro h
    simp [get_average_rating, sqlAvg, h]
  · intro h
    have hx : (get_ratings_by_photo db photo_id).map (fun r => r.score) ≠ [] := by
      simpa using h
    have hm := sqlAvg_mul_length _ hx
    rw [List.length_map] at hm
    exact hm

/-- C6 witness: on the concrete database, photo 1 has one rating of 5, and
the average times the count equals the sum. -/
theorem get_average_rating_exact_mean_witness :
    get_average_rating exampleDB 1 * ((get_ratings_by_photo exampleDB 1).length : ℚ)
      = ((((get_ratings_by_photo exampleDB 1).map (fun r => r.score)).sum : Int) : ℚ) :=
  (get_average_rating_exact_mean exampleDB 1).2 (by decide)

/-- C2 (code bug): the request GET /suggestions is dispatched to the
first-registered handler `suggest_photographers` (the friend-of-friend
query), not to `get_photographer_suggestions`; moreover strategy 3 of the
shadowed handler references `Photo` attributes (`likes_count`,
`created_at`) that the `Photo` model does not define, so that handler
could not run successfully anyway. -/
theorem suggestions_route_shadowed_and_broken :
    dispatch suggestion_routes "GET" "/suggestions" = some "suggest_photographers" ∧
    "likes_count" ∈ strategy3_photo_attributes ∧
    "likes_count" ∉ photo_model_columns ∧
    "created_at" ∈ strategy3_photo_attributes ∧
    "created_at" ∉ photo_model_columns := by
  refine ⟨rfl, ?_, ?_, ?_, ?_⟩ <;> decide

/-- C7: every status code raised by a route handler lies in
\x7b400, 401, 403, 404, 500\x7d, and for a photo id with no matching photo
the comment, rating and download handlers raise 404 leaving the database
unchanged. -/
theorem http_failures_conform (db : DB) :
    raised_status_codes.all (fun c => allowed_status_codes.contains c) = true ∧
    (∀ u pid content, get_photo db pid = none →
      create_comment_handler db u pid content = .error 404 ∧
      comment_result_state db u pid content = db) ∧
    (∀ u pid score, get_photo db pid = none →
      create_rating_handler db u pid score = .error 404 ∧
      rating_result_state db u pid score = db) ∧
    (∀ files pid, get_photo db pid = none →
      download_photo_handler db files pid = .error 404 ∧
      download_result_state db files pid = db) := by
  refine ⟨by decide, ?_, ?_, ?_⟩
  · intro u pid content h
    constructor <;> simp [create_comment_handler, comment_result_state, h]
  · intro u pid score h
    constructor <;> simp [create_rating_handler, rating_result_state, h]
  · intro files pid h
    constructor <;> simp [download_photo_handler, download_result_state, h]

/-- C7 witness: there is no photo 42 in the concrete database, so posting a
comment on it fails with 404 and leaves the state unchanged. -/
theorem http_failures_conform_witness :
    create_comment_handler exampleDB 2 42 "hello" = .error 404 ∧
    comment_result_state exampleDB 2 42 "hello" = exampleDB :=
  (http_failures_conform exampleDB).2.1 2 42 "hello" (by decide)

/-- C3: on an existing photo, creating a comment or a rating succeeds
exactly when the caller owns the photo or follows its owner; otherwise
both handlers raise HTTP 403 and the database is unchanged. -/
theorem comment_rating_require_owner_or_follow (db : DB) (u pid : Nat)
    (content : String) (score : Int) (photo : PhotoRow)
    (hp : get_photo db pid = some photo) :
    ((photo.user_id = u ∨ check_follow_exists db u photo.user_id = true) ↔
        ∃ res, create_comment_handler db u pid content = .ok res) ∧
    ((photo.user_id = u ∨ check_follow_exists db u photo.user_id = true) ↔
        ∃ res, create_rating_handler db u pid score = .ok res) ∧
    (¬(photo.user_id = u ∨ check_follow_exists db u photo.user_id = true) →
      create_comment_handler db u pid content = .error 403 ∧
      comment_result_state db u pid content = db ∧
      create_rating_handler db u pid score = .error 403 ∧
      rating_result_state db u pid score = db) := by
  by_cases hcond : photo.user_id = u ∨ check_follow_exists db u photo.user_id = true
  · have hb : (photo.user_id == u || check_follow_exists db u photo.user_id) = true := by
      rcases hcond with h | h <;> simp [h]
    refine ⟨?_, ?_, fun hn => absurd hcond hn⟩ <;>
      simp [create_comment_handler, create_rating_handler, hp, hb, hcond]
  · have hb : (photo.user_id == u || check_follow_exists db u photo.user_id) = false := by
      push_neg at hcond
      simp [hcond.1, hcond.2]
    constructor
    · simp [create_comment_handler, hp, hb, hcond]
    constructor
    · simp [create_rating_handler, hp, hb, hcond]
    · intro _
      refine ⟨?_, ?_, ?_, ?_⟩ <;>
        simp [create_comment_handler, create_rating_handler,
              comment_result_state, rating_result_state, hp, hb]

/-- C3 witness: user 7 neither owns photo 1 of the concrete database nor
follows its owner, so commenting and rating both fail with 403 and leave
the state unchanged. -/
theorem comment_rating_require_owner_or_follow_witness :
    create_comment_handler exampleDB 7 1 "hi" = .error 403 ∧
    comment_result_state exampleDB 7 1 "hi" = exampleDB ∧
    create_rating_handler exampleDB 7 1 3 = .error 403 ∧
    rating_result_state exampleDB 7 1 3 = exampleDB :=
  (comment_rating_require_owner_or_follow exampleDB 7 1 "hi" 3
      ⟨1, 1, "p1.jpg", 7, 0⟩ (by decide)).2.2 (by decide)

/-- C10: a successful download increments the target photo's
download_count by exactly one, changing no other field of that row, no
other photo row and no other table; a missing photo row or a missing file
leaves the database unchanged. -/
theorem download_updates_only_target (db : DB) (files : List String) (pid : Nat) :
    (∀ photo, get_photo db pid = some photo → photo.filename ∈ files →
      ∃ db2, download_photo_handler db files pid = .ok (db2, photo.filename) ∧
        db2.users = db.users ∧ db2.follows = db.follows ∧
        db2.comments = db.comments ∧ db2.ratings = db.ratings ∧
        db2.tags = db.tags ∧ db2.bestPhotos = db.bestPhotos ∧
        List.Forall₂ (fun q q2 =>
          (q.id ≠ photo.id → q2 = q) ∧
          (q.id = photo.id →
            q2 = { q with download_count := q.download_count + 1 }))
          db.photos db2.photos) ∧
    (get_photo db pid = none → download_result_state db files pid = db) ∧
    (∀ photo, get_photo db pid = some photo → photo.filename ∉ files →
      download_result_state db files pid = db) := by
  refine ⟨?_, ?_, ?_⟩
  · intro photo hp hf
    refine ⟨increment_download_count db photo, ?_, rfl, rfl, rfl, rfl, rfl, rfl, ?_⟩
    · simp [download_photo_handler, hp, hf]
    · rw [show (increment_download_count db photo).photos =
          db.photos.map (fun q =>
            if q.id == photo.id
            then { q with download_count := q.download_count + 1 }
            else q) from rfl]
      rw [List.forall₂_map_right_iff, List.forall₂_same]
      intro q _
      constructor
      · intro hne
        simp [hne]
      · intro heq
        simp [heq]
  · intro h
    simp [download_result_state, download_photo_handler, h]
  · intro photo hp hf
    simp [download_result_state, download_photo_handler, hp, hf]

/-- C10 witness: photo 1 exists but its file is absent from the upload
directory, so the download leaves the database unchanged. -/
theorem download_updates_only_target_witness :
    download_result_state exampleDB [] 1 = exampleDB :=
  (download_updates_only_target exampleDB [] 1).2.2
    ⟨1, 1, "p1.jpg", 7, 0⟩ (by decide) (by decide)

/-- One rating-endpoint call keeps every stored score inside [1, 5]. -/
lemma rating_event_preserves (db : DB) (e : RatingEvent)
    (hinv : rating_invariant db) : rating_invariant (apply_rating_event db e) := by
  unfold apply_rating_event
  by_cases hv : rating_create_valid e.score = true
  · simp only [hv, if_true]
    unfold rating_result_state create_rating_handler
    cases hp : get_photo db e.pid with
    | none => exact hinv
    | some photo =>
        by_cases hperm :
            (photo.user_id == e.uid || check_follow_exists db e.uid photo.user_id) = true
        · simp only [hperm, Bool.not_true, Bool.false_eq_true, if_false]
          intro r hr
          rcases List.mem_append.mp hr with h | h
          · exact hinv r h
          · have hb := hv
            simp only [rating_create_valid, Bool.and_eq_true, decide_eq_true_eq] at hb
            simp only [List.mem_singleton] at h
            subst h
            exact hb
        · simp only [Bool.not_eq_true] at hperm
          simp only [hperm, Bool.not_false, if_true]
          exact hinv
  · simp only [Bool.not_eq_true] at hv
    simp only [hv, Bool.false_eq_true, if_false]
    exact hinv

/-- C9: starting from any state whose scores are in range, every state
reachable through POST /photos/.../ratings calls (whose payloads passed
the `RatingCreate` schema) has every stored rating score in [1, 5]. -/
theorem rating_scores_stay_in_range (db : DB) (hinv : rating_invariant db)
    (events : List RatingEvent) :
    rating_invariant (events.foldl apply_rating_event db) := by
  induction events generalizing db with
  | nil => exact hinv
  | cons e rest ih => exact ih _ (rating_event_preserves db e hinv)

/-- C9 witness: after a valid (score 4) and an invalid (score 9) rating
request on the concrete database, all stored scores are within [1, 5]. -/
theorem rating_scores_stay_in_range_witness :
    rating_invariant (List.foldl apply_rating_event exampleDB
      [⟨2, 1, 4⟩, ⟨2, 1, 9⟩]) :=
  rating_scores_stay_in_range exampleDB
    (by unfold rating_invariant; decide) [⟨2, 1, 4⟩, ⟨2, 1, 9⟩]

/-- Inversion of a successful follow-endpoint call: all four guards
passed and the follow row was inserted. -/
lemma follow_handler_ok_inv (db : DB) (u p : Nat) (res : DB × FollowRow)
    (h : follow_photographer_handler db u p = .ok res) :
    u ≠ p ∧ ∃ ph, get_user_by_id db p = some ph ∧ ph.is_photographer = true ∧
      (get_follow db u p).isSome = false ∧ res = follow_user db u p := by
  unfold follow_photographer_handler at h
  by_cases hself : (u == p) = true
  · simp [hself] at h
  · cases hu : get_user_by_id db p with
    | none => simp [hself, hu] at h
    | some ph =>
        by_cases hphot : ph.is_photographer = true
        · by_cases hdup : (get_follow db u p).isSome = true
          · simp [hself, hu, hphot, hdup] at h
          · simp [hself, hu, hphot, hdup] at h
            exact ⟨by simpa using hself, ph, rfl, hphot,
              by simpa using hdup, h.symm⟩
        · simp [hself, hu, hphot] at h

/-- One follow/unfollow endpoint call preserves the follow-table
invariant. -/
lemma follow_event_preserves (db : DB) (e : FollowEvent)
    (hinv : follow_invariant db) : follow_invariant (apply_follow_event db e) := by
  cases e with
  | follow u p =>
      cases hh : follow_photographer_handler db u p with
      | error c => simpa [apply_follow_event, hh] using hinv
      | ok res =>
          obtain ⟨hne, ph, hu, hphot, hdup, hres⟩ := follow_handler_ok_inv db u p res hh
          subst hres
          have hstate : apply_follow_event db (.follow u p) = (follow_user db u p).1 := by
            simp [apply_follow_event, hh]
          rw [hstate]
          constructor
          · intro f hf
            simp only [follow_user] at hf
            rcases List.mem_append.mp hf with hold | hnew
            · exact hinv.1 f hold
            · simp only [List.mem_singleton] at hnew
              subst hnew
              refine ⟨by simpa using hne, ph, List.mem_of_find?_eq_some hu, ?_, hphot⟩
              have hpe : ph.id = p := by simpa using List.find?_some hu
              exact hpe
          · show List.Pairwise _ (db.follows ++ [_])
            rw [List.pairwise_append]
            refine ⟨hinv.2, List.pairwise_singleton _ _, ?_⟩
            intro a ha b hb
            simp only [List.mem_singleton] at hb
            subst hb
            have hnone : get_follow db u p = none := by
              cases hg : get_follow db u p with
              | none => rfl
              | some f => rw [hg] at hdup; simp at hdup
            have hnm := List.find?_eq_none.mp hnone a ha
            simp only [Bool.and_eq_true, beq_iff_eq, not_and] at hnm
            by_cases hfa : a.follower_id = u
            · exact Or.inr (hnm hfa)
            · exact Or.inl hfa
  | unfollow u p =>
      cases hh : unfollow_photographer_handler db u p with
      | error c => simpa [apply_follow_event, hh] using hinv
      | ok db2 =>
          have hdb2 : db2 = unfollow_user db u p := by
            unfold unfollow_photographer_handler at hh
            cases hu : get_user_by_id db p with
            | none => simp [hu] at hh
            | some ph =>
                rw [hu] at hh
                by_cases hphot : ph.is_photographer = true
                · by_cases hex : check_follow_exists db u p = true
                  · simpa [hphot, hex] using hh.symm
                  · simp [hphot, hex] at hh
                · simp [hphot] at hh
          have hstate : apply_follow_event db (.unfollow u p) = db2 := by
            simp [apply_follow_event, hh]
          rw [hstate, hdb2]
          constructor
          · intro f hf
            simp only [unfollow_user] at hf
            exact hinv.1 f (List.mem_of_mem_filter hf)
          · exact hinv.2.sublist (List.filter_sublist _)

/-- C8: from any state satisfying the follow-table invariant, every state
reachable through follow/unfollow endpoint calls still satisfies it: no
self-follow, no duplicate (follower, followee) pair, every followee a
photographer; moreover the follow endpoint answers 400 — leaving the state
unchanged — on a self-follow, a non-photographer target, and a duplicate
follow. -/
theorem follow_reachable_invariant (db : DB) (hinv : follow_invariant db) :
    (∀ events : List FollowEvent,
      follow_invariant (events.foldl apply_follow_event db)) ∧
    (∀ u, follow_photographer_handler db u u = .error 400 ∧
      apply_follow_event db (.follow u u) = db) ∧
    (∀ u p ph, u ≠ p → get_user_by_id db p = some ph →
      ph.is_photographer = false →
      follow_photographer_handler db u p = .error 400 ∧
      apply_follow_event db (.follow u p) = db) ∧
    (∀ u p ph, u ≠ p → get_user_by_id db p = some ph →
      ph.is_photographer = true → check_follow_exists db u p = true →
      follow_photographer_handler db u p = .error 400 ∧
      apply_follow_event db (.follow u p) = db) := by
  refine ⟨?_, ?_, ?_, ?_⟩
  · intro events
    induction events generalizing db with
    | nil => exact hinv
    | cons e rest ih => exact ih _ (follow_event_preserves db e hinv)
  · intro u
    constructor <;> simp [apply_follow_event, follow_photographer_handler]
  · intro u p ph hne hu hphot
    constructor <;>
      simp [apply_follow_event, follow_photographer_handler, hne, hu, hphot]
  · intro u p ph hne hu hphot hex
    have hdup : (get_follow db u p).isSome = true := hex
    constructor <;>
      simp [apply_follow_event, follow_photographer_handler, hne, hu, hphot, hdup]

/-- C8 witness: on the concrete database (where the invariant holds),
a fresh follow, a duplicate follow and a self-follow leave the invariant
intact. -/
theorem follow_reachable_invariant_witness :
    follow_invariant (List.foldl apply_follow_event exampleDB
      [FollowEvent.follow 1 2, FollowEvent.follow 1 2, FollowEvent.follow 1 1]) :=
  (follow_reachable_invariant exampleDB
      (by unfold follow_invariant; decide)).1 _

/-- The defaulted SQL average of nonnegative scores is nonnegative. -/
lemma sqlAvg_defaulted_nonneg (xs : List Int) (h : ∀ x ∈ xs, 0 ≤ x) :
    0 ≤ (match sqlAvg xs with | none => (0 : ℚ) | some q => q) := by
  unfold sqlAvg
  by_cases he : xs.isEmpty
  · simp [he]
  · simp only [he, Bool.false_eq_true, if_false]
    apply div_nonneg
    · exact_mod_cast List.sum_nonneg h
    · exact_mod_cast Nat.zero_le _

/-- If every stored rating score is nonnegative, every photo score is
nonnegative. -/
lemma photo_score_nonneg (db : DB) (hnn : ∀ r ∈ db.ratings, 0 ≤ r.score)
    (p : PhotoRow) : 0 ≤ photo_score db p := by
  unfold photo_score
  have havg : 0 ≤ get_average_rating db p.id := by
    unfold get_average_rating
    apply sqlAvg_defaulted_nonneg
    intro x hx
    obtain ⟨r, hr, rfl⟩ := List.mem_map.mp hx
    exact hnn r (List.mem_of_mem_filter hr)
  have h1 : (0 : ℚ) ≤ (comment_count db p.id : ℚ) * (1 / 2) := by positivity
  have h2 : (0 : ℚ) ≤ (p.download_count : ℚ) * (1 / 5) := by positivity
  have h3 : (0 : ℚ) ≤ get_average_rating db p.id * 2 := by linarith
  linarith

/-- The best-photo scan never loses a current best: starting from `some b`
it ends on some photo. -/
lemma best_photo_loop_some (db : DB) (l : List PhotoRow) (b : PhotoRow) (bs : ℚ) :
    ∃ p, best_photo_loop db l (some b) bs = some p := by
  induction l generalizing b bs with
  | nil => exact ⟨b, rfl⟩
  | cons a rest ih =>
      unfold best_photo_loop
      by_cases hc : bs < photo_score db a
      · rw [if_pos hc]; exact ih _ _
      · rw [if_neg hc]; exact ih _ _

/-- Specification of the best-photo scan: when it returns a photo, that
photo comes from the scanned list (or was the incoming best), its score is
at least the incoming threshold, and it maximises the score over the
scanned list. -/
lemma best_photo_loop_spec (db : DB) (l : List PhotoRow) :
    ∀ (best : Option PhotoRow) (bs : ℚ),
      (∀ b, best = some b → photo_score db b = bs) →
      ∀ p, best_photo_loop db l best bs = some p →
        (p ∈ l ∨ best = some p) ∧ bs ≤ photo_score db p ∧
        ∀ q ∈ l, photo_score db q ≤ photo_score db p := by
  induction l with
  | nil =>
      intro best bs hb p hp
      simp only [best_photo_loop] at hp
      exact ⟨Or.inr hp, (hb p hp).ge, by simp⟩
  | cons a rest ih =>
      intro best bs hb p hp
      unfold best_photo_loop at hp
      by_cases hc : bs < photo_score db a
      · rw [if_pos hc] at hp
        obtain ⟨hmem, hge, hall⟩ := ih (some a) (photo_score db a)
          (by intro b hb2; injection hb2 with h; rw [h]) p hp
        refine ⟨?_, le_of_lt (lt_of_lt_of_le hc hge), ?_⟩
        · rcases hmem with h | h
          · exact Or.inl (List.mem_cons_of_mem _ h)
          · injection h with h
            exact Or.inl (h ▸ List.mem_cons_self a rest)
        · intro q hq
          rcases List.mem_cons.mp hq with rfl | hq2
          · exact hge
          · exact hall q hq2
      · rw [if_neg hc] at hp
        obtain ⟨hmem, hge, hall⟩ := ih best bs hb p hp
        refine ⟨?_, hge, ?_⟩
        · rcases hmem with h | h
          · exact Or.inl (List.mem_cons_of_mem _ h)
          · exact Or.inr h
        · intro q hq
          rcases List.mem_cons.mp hq with rfl | hq2
          · exact le_trans (not_lt.mp hc) hge
          · exact hall q hq2

/-- Updating the existing best-photo row of a date keeps it findable and
sets its photo id. -/
lemma find_date_in_update (l : List BestPhotoRow) (d pid : Nat)
    (hex : l.any (fun b => b.date == d) = true) :
    ∃ b, (l.map (fun b => if b.date == d then { b with photo_id := pid } else b)).find?
        (fun b => b.date == d) = some b ∧ b.date = d ∧ b.photo_id = pid := by
  induction l with
  | nil => simp at hex
  | cons a rest ih =>
      by_cases ha : (a.date == d) = true
      · have had : a.date = d := beq_iff_eq.mp ha
        refine ⟨{ a with photo_id := pid }, ?_, had, rfl⟩
        rw [List.map_cons, if_pos ha]
        exact List.find?_cons_of_pos _ (by simpa using ha)
      · have hrest : rest.any (fun b => b.date == d) = true := by
          simpa [ha] using hex
        obtain ⟨b, hb, h1, h2⟩ := ih hrest
        refine ⟨b, ?_, h1, h2⟩
        rw [List.map_cons, if_neg ha]
        exact (@List.find?_cons_of_neg _ (fun b => b.date == d) a _ ha).trans hb

/-- Appending a fresh best-photo row for a date not yet present makes it
the one found for that date. -/
lemma find_date_in_append (l : List BestPhotoRow) (d pid : Nat)
    (hex : l.any (fun b => b.date == d) = false) :
    (l ++ [(⟨d, pid⟩ : BestPhotoRow)]).find? (fun b => b.date == d)
      = some (⟨d, pid⟩ : BestPhotoRow) := by
  induction l with
  | nil => simp
  | cons a rest ih =>
      simp only [List.any_cons, Bool.or_eq_false_iff] at hex
      rw [List.cons_append, List.find?_cons_of_neg _ (by simp [hex.1]), ih hex.2]

/-- After `set_best_photo_of_day db d pid`, querying the best photo of
date `d` returns a row for that date holding `pid`. -/
lemma get_set_best_photo (db : DB) (d pid : Nat) :
    ∃ b, get_best_photo_of_day (set_best_photo_of_day db d pid) d = some b ∧
      b.date = d ∧ b.photo_id = pid := by
  unfold set_best_photo_of_day get_best_photo_of_day
  by_cases hex : db.bestPhotos.any (fun b => b.date == d) = true
  · rw [if_pos hex]
    exact find_date_in_update db.bestPhotos d pid hex
  · rw [if_neg hex]
    exact ⟨⟨d, pid⟩, find_date_in_append db.bestPhotos d pid (by simpa using hex),
      rfl, rfl⟩

/-- C1: for every target date, the best-photo calculation scans exactly
the photos uploaded on that date; when the day has no photo it returns
`None` and leaves the database untouched, and otherwise it stores a photo
of that day whose score `(avg rating * 2) + (comments * 0.5) +
(downloads * 0.2)` is maximal, recorded as the best photo of that date. -/
theorem best_photo_calculation (db : DB) (target_date : Nat)
    (hnn : ∀ r ∈ db.ratings, 0 ≤ r.score) :
    (photos_of_date db target_date = [] →
      calculate_and_store_best_photo db target_date = (none, db)) ∧
    (photos_of_date db target_date ≠ [] →
      ∃ best, best ∈ photos_of_date db target_date ∧
        (∀ q ∈ photos_of_date db target_date,
          photo_score db q ≤ photo_score db best) ∧
        (calculate_and_store_best_photo db target_date).1 = some best.id ∧
        ∃ b, get_best_photo_of_day
            (calculate_and_store_best_photo db target_date).2 target_date
              = some b ∧ b.date = target_date ∧ b.photo_id = best.id) := by
  constructor
  · intro h
    unfold calculate_and_store_best_photo
    rw [h]
    rfl
  · intro h
    obtain ⟨p1, rest, hl⟩ := List.exists_cons_of_ne_nil h
    have hfirst : (-1 : ℚ) < photo_score db p1 := by
      have := photo_score_nonneg db hnn p1
      linarith
    have hloop1 : best_photo_loop db (photos_of_date db target_date) none (-1)
        = best_photo_loop db rest (some p1) (photo_score db p1) := by
      rw [hl]
      simp only [best_photo_loop, hfirst, if_true]
    obtain ⟨best, hbest⟩ := best_photo_loop_some db rest p1 (photo_score db p1)
    have hloop : best_photo_loop db (photos_of_date db target_date) none (-1)
        = some best := by rw [hloop1, hbest]
    obtain ⟨hmem, _, hmax⟩ := best_photo_loop_spec db (photos_of_date db target_date)
      none (-1) (by intro b hb; cases hb) best hloop
    have hmem2 : best ∈ photos_of_date db target_date := by
      rcases hmem with h2 | h2
      · exact h2
      · cases h2
    refine ⟨best, hmem2, hmax, ?_, ?_⟩
    · unfold calculate_and_store_best_photo
      rw [hloop]
    · have hsnd : (calculate_and_store_best_photo db target_date).2
          = set_best_photo_of_day db target_date best.id := by
        unfold calculate_and_store_best_photo
        rw [hloop]
      rw [hsnd]
      exact get_set_best_photo db target_date best.id

/-- C1 witness: no photo of the concrete database was uploaded on day 8,
so the calculation returns `None` and leaves the database unchanged. -/
theorem best_photo_calculation_witness :
    calculate_and_store_best_photo exampleDB 8 = (none, exampleDB) :=
  (best_photo_calculation exampleDB 8 (by decide)).1 (by decide)

/-- C5 counterexample: deleting user 1 also deletes comment 1, a row
belonging to user 2, through the photo cascade — so user deletion does
not leave all rows of other users untouched; the claim as stated would
keep exactly the comments of other users. -/
theorem delete_user_cascade_counterexample :
    (delete_user_cascade cascadeDB 1).comments = [] ∧
    cascadeDB.comments.filter (fun c => c.user_id != 1) = [⟨1, 1, 2, "great"⟩] ∧
    (delete_user_cascade cascadeDB 1).comments
      ≠ cascadeDB.comments.filter (fun c => c.user_id != 1) := by
  refine ⟨by rfl, by rfl, by decide⟩

/-- Composing the per-photo cascade over a list of photo ids filters every
dependent table by non-membership of the photo id, and leaves users and
follows untouched. -/
lemma fold_delete_photo_cascade (l : List Nat) (db : DB) :
    (l.foldl delete_photo_cascade db).users = db.users ∧
    (l.foldl delete_photo_cascade db).follows = db.follows ∧
    (l.foldl delete_photo_cascade db).photos
      = db.photos.filter (fun p => !(l.contains p.id)) ∧
    (l.foldl delete_photo_cascade db).comments
      = db.comments.filter (fun c => !(l.contains c.photo_id)) ∧
    (l.foldl delete_photo_cascade db).ratings
      = db.ratings.filter (fun r => !(l.contains r.photo_id)) ∧
    (l.foldl delete_photo_cascade db).tags
      = db.tags.filter (fun t => !(l.contains t.photo_id)) ∧
    (l.foldl delete_photo_cascade db).bestPhotos
      = db.bestPhotos.filter (fun b => !(l.contains b.photo_id)) := by
  induction l generalizing db with
  | nil => simp
  | cons x xs ih =>
      obtain ⟨h1, h2, h3, h4, h5, h6, h7⟩ := ih (delete_photo_cascade db x)
      rw [List.foldl_cons]
      refine ⟨h1, h2, ?_, ?_, ?_, ?_, ?_⟩ <;>
        · first
          | (rw [h3, show (delete_photo_cascade db x).photos
                = db.photos.filter (fun p => p.id != x) from rfl])
          | (rw [h4, show (delete_photo_cascade db x).comments
                = db.comments.filter (fun c => c.photo_id != x) from rfl])
          | (rw [h5, show (delete_photo_cascade db x).ratings
                = db.ratings.filter (fun r => r.photo_id != x) from rfl])
          | (rw [h6, show (delete_photo_cascade db x).tags
                = db.tags.filter (fun t => t.photo_id != x) from rfl])
          | (rw [h7, show (delete_photo_cascade db x).bestPhotos
                = db.bestPhotos.filter (fun b => b.photo_id != x) from rfl])
          rw [List.filter_filter]
          apply List.filter_congr
          intro a _
          simp [List.contains_cons, Bool.not_or, bne, Bool.beq_eq_decide_eq, Bool.and_comm]

/-- C5 amended: deleting a photo removes exactly its comments, ratings,
tags and best-photo rows, leaving users and follows untouched; deleting a
user removes the user row, the user's photos, the user's own comments,
ratings and follow rows (both directions), and — through the photo
cascade — every comment, rating, tag and best-photo row attached to the
user's photos, including ones authored by other users; all remaining rows
are untouched. -/
theorem delete_cascades_characterization (db : DB) (uid pid : Nat) :
    ((delete_photo_cascade db pid).users = db.users ∧
     (delete_photo_cascade db pid).follows = db.follows ∧
     (delete_photo_cascade db pid).photos
       = db.photos.filter (fun p => p.id != pid) ∧
     (delete_photo_cascade db pid).comments
       = db.comments.filter (fun c => c.photo_id != pid) ∧
     (delete_photo_cascade db pid).ratings
       = db.ratings.filter (fun r => r.photo_id != pid) ∧
     (delete_photo_cascade db pid).tags
       = db.tags.filter (fun t => t.photo_id != pid) ∧
     (delete_photo_cascade db pid).bestPhotos
       = db.bestPhotos.filter (fun b => b.photo_id != pid)) ∧
    ((delete_user_cascade db uid).users
       = db.users.filter (fun u => u.id != uid) ∧
     (delete_user_cascade db uid).follows
       = db.follows.filter (fun f => f.follower_id != uid && f.followee_id != uid) ∧
     (delete_user_cascade db uid).photos
       = db.photos.filter (fun p =>
           !(((db.photos.filter (fun q => q.user_id == uid)).map (fun q => q.id)).contains p.id)
             && p.user_id != uid) ∧
     (delete_user_cascade db uid).comments
       = db.comments.filter (fun c =>
           !(((db.photos.filter (fun q => q.user_id == uid)).map (fun q => q.id)).contains c.photo_id)
             && c.user_id != uid) ∧
     (delete_user_cascade db uid).ratings
       = db.ratings.filter (fun r =>
           !(((db.photos.filter (fun q => q.user_id == uid)).map (fun q => q.id)).contains r.photo_id)
             && r.user_id != uid) ∧
     (delete_user_cascade db uid).tags
       = db.tags.filter (fun t =>
           !(((db.photos.filter (fun q => q.user_id == uid)).map (fun q => q.id)).contains t.photo_id)) ∧
     (delete_user_cascade db uid).bestPhotos
       = db.bestPhotos.filter (fun b =>
           !(((db.photos.filter (fun q => q.user_id == uid)).map (fun q => q.id)).contains b.photo_id))) := by
  obtain ⟨h1, h2, h3, h4, h5, h6, h7⟩ :=
    fold_delete_photo_cascade
      ((db.photos.filter (fun q => q.user_id == uid)).map (fun q => q.id)) db
  refine ⟨⟨rfl, rfl, rfl, rfl, rfl, rfl, rfl⟩, ?_, ?_, ?_, ?_, ?_, ?_, ?_⟩
  · have e : (delete_user_cascade db uid).users
        = (((db.photos.filter (fun q => q.user_id == uid)).map (fun q => q.id)).foldl
            delete_photo_cascade db).users.filter (fun u => u.id != uid) := rfl
    rw [e, h1]
  · have e : (delete_user_cascade db uid).follows
        = (((db.photos.filter (fun q => q.user_id == uid)).map (fun q => q.id)).foldl
            delete_photo_cascade db).follows.filter (fun f =>
              f.follower_id != uid && f.followee_id != uid) := rfl
    rw [e, h2]
  · have e : (delete_user_cascade db uid).photos
        = (((db.photos.filter (fun q => q.user_id == uid)).map (fun q => q.id)).foldl
            delete_photo_cascade db).photos.filter (fun p => p.user_id != uid) := rfl
    rw [e, h3, List.filter_filter]
    apply List.filter_congr
    intro a _
    exact Bool.and_comm _ _
  · have e : (delete_user_cascade db uid).comments
        = (((db.photos.filter (fun q => q.user_id == uid)).map (fun q => q.id)).foldl
            delete_photo_cascade db).comments.filter (fun c => c.user_id != uid) := rfl
    rw [e, h4, List.filter_filter]
    apply List.filter_congr
    intro a _
    exact Bool.and_comm _ _
  · have e : (delete_user_cascade db uid).ratings
        = (((db.photos.filter (fun q => q.user_id == uid)).map (fun q => q.id)).foldl
            delete_photo_cascade db).ratings.filter (fun r => r.user_id != uid) := rfl
    rw [e, h5, List.filter_filter]
    apply List.filter_congr
    intro a _
    exact Bool.and_comm _ _
  · have e : (delete_user_cascade db uid).tags
        = (((db.photos.filter (fun q => q.user_id == uid)).map (fun q => q.id)).foldl
            delete_photo_cascade db).tags := rfl
    rw [e, h6]
  · have e : (delete_user_cascade db uid).bestPhotos
        = (((db.photos.filter (fun q => q.user_id == uid)).map (fun q => q.id)).foldl
            delete_photo_cascade db).bestPhotos := rfl
    rw [e, h7]

end PhotoApp
